import Mathlib

/-!
A shallow embedding of the arena string field holder of
`src/google/protobuf/arenastring.h` (structs `ArenaString`, `TaggedPtr`
and `ArenaStringPtr`), together with proofs of the behavioural
properties stated in the specification.

Modelling conventions:
  * Pointers are natural-number addresses into an explicit store `Mem`.
  * A string object (either a plain `std::string` or an `ArenaString`,
    which is layout-compatible with `std::string`) is a `StrObj`:
    its character content, its reported `capacity()`, and whether the
    object itself was constructed on an arena.
  * `Mem` is a store of live string objects plus an allocation cursor
    `next` (fresh heap and arena addresses come from the same cursor),
    the ordered list `freed` of addresses passed to `delete`, and the
    list `arenaOwned` of heap objects registered with `Arena::Own`.
  * The `Arena*` argument of the C++ functions is modelled by a `Bool`
    (`true` = non-null arena).  Arena identity never matters in this
    header, only nullness.
  * External `std::string` behaviour is modelled as in the common
    library implementations the header relies on: a fresh string has
    the inline capacity 15 (`kInternalCapacity`) or, beyond that,
    capacity equal to its length; assignment grows capacity exactly to
    the length when it does not fit and never shrinks it; moving from a
    string leaves the source empty with inline capacity.
  * Dereferencing a dangling pointer is undefined behaviour in C++; the
    model makes such operations leave the store unchanged.  All
    theorems carry liveness hypotheses, so this choice is never
    exercised.
-/

/-- A string object: the payload of a `std::string` (or of the
layout-compatible `ArenaString`). `capacity` is what `capacity()`
reports; `onArena` records whether the object itself was constructed
on an arena (by `Arena::CreateMessage` / `Arena::Create`). -/
structure StrObj where
  content : String
  capacity : Nat
  onArena : Bool
deriving Repr, DecidableEq

/-- The store: live string objects addressed by `Nat`, an allocation
cursor, the ordered list of addresses passed to `delete`, and the list
of addresses registered with `Arena::Own`. -/
structure Mem where
  next : Nat
  live : Nat → Option StrObj
  freed : List Nat
  arenaOwned : List Nat

def Mem.lookup (m : Mem) (a : Nat) : Option StrObj := m.live a

/-- Overwrite the object at address `a` (in-place mutation through a
pointer). -/
def Mem.write (m : Mem) (a : Nat) (o : StrObj) : Mem :=
  { m with live := fun x => if x = a then some o else m.live x }

/-- Allocate a fresh object (heap `new` or arena placement); returns
its address. -/
def Mem.alloc (m : Mem) (o : StrObj) : Nat × Mem :=
  (m.next,
    { m with
      next := m.next + 1
      live := fun x => if x = m.next then some o else m.live x })

/-- `delete` the object at address `a`. -/
def Mem.free (m : Mem) (a : Nat) : Mem :=
  { m with
    live := fun x => if x = a then none else m.live x
    freed := m.freed ++ [a] }

/-- `arena->Own(a)`: register a heap object for destruction at arena
teardown. -/
def Mem.own (m : Mem) (a : Nat) : Mem :=
  { m with arenaOwned := a :: m.arenaOwned }

/-- Well-formedness of a store: live addresses are below the cursor and
were never deleted, and arena-registered addresses are below the
cursor. -/
def Mem.WF (m : Mem) : Prop :=
  (∀ a, (m.lookup a).isSome → a < m.next) ∧
  (∀ a, (m.lookup a).isSome → a ∉ m.freed) ∧
  (∀ a, a ∈ m.arenaOwned → a < m.next)

@[simp] theorem Mem.lookup_write_self (m : Mem) (a : Nat) (o : StrObj) :
    (m.write a o).lookup a = some o := by
  simp [Mem.write, Mem.lookup]

@[simp] theorem Mem.lookup_write_ne (m : Mem) {a b : Nat} (o : StrObj) (h : b ≠ a) :
    (m.write a o).lookup b = m.lookup b := by
  simp [Mem.write, Mem.lookup, h]

@[simp] theorem Mem.next_write (m : Mem) (a : Nat) (o : StrObj) :
    (m.write a o).next = m.next := rfl

@[simp] theorem Mem.freed_write (m : Mem) (a : Nat) (o : StrObj) :
    (m.write a o).freed = m.freed := rfl

@[simp] theorem Mem.arenaOwned_write (m : Mem) (a : Nat) (o : StrObj) :
    (m.write a o).arenaOwned = m.arenaOwned := rfl

@[simp] theorem Mem.alloc_fst (m : Mem) (o : StrObj) :
    (m.alloc o).1 = m.next := rfl

@[simp] theorem Mem.next_alloc (m : Mem) (o : StrObj) :
    (m.alloc o).2.next = m.next + 1 := rfl

@[simp] theorem Mem.lookup_alloc_self (m : Mem) (o : StrObj) :
    (m.alloc o).2.lookup m.next = some o := by
  simp [Mem.alloc, Mem.lookup]

@[simp] theorem Mem.lookup_alloc (m : Mem) (o : StrObj) {b : Nat} (h : b = m.next) :
    (m.alloc o).2.lookup b = some o := by
  subst h
  simp [Mem.alloc, Mem.lookup]

@[simp] theorem Mem.lookup_alloc_ne (m : Mem) {b : Nat} (o : StrObj) (h : b ≠ m.next) :
    (m.alloc o).2.lookup b = m.lookup b := by
  simp [Mem.alloc, Mem.lookup, h]

@[simp] theorem Mem.freed_alloc (m : Mem) (o : StrObj) :
    (m.alloc o).2.freed = m.freed := rfl

@[simp] theorem Mem.arenaOwned_alloc (m : Mem) (o : StrObj) :
    (m.alloc o).2.arenaOwned = m.arenaOwned := rfl

@[simp] theorem Mem.lookup_free_self (m : Mem) (a : Nat) :
    (m.free a).lookup a = none := by
  simp [Mem.free, Mem.lookup]

@[simp] theorem Mem.lookup_free_ne (m : Mem) {a b : Nat} (h : b ≠ a) :
    (m.free a).lookup b = m.lookup b := by
  simp [Mem.free, Mem.lookup, h]

@[simp] theorem Mem.freed_free (m : Mem) (a : Nat) :
    (m.free a).freed = m.freed ++ [a] := rfl

@[simp] theorem Mem.next_free (m : Mem) (a : Nat) :
    (m.free a).next = m.next := rfl

@[simp] theorem Mem.arenaOwned_free (m : Mem) (a : Nat) :
    (m.free a).arenaOwned = m.arenaOwned := rfl

/-- A live address is strictly below the allocation cursor. -/
theorem Mem.lookup_lt_next {m : Mem} (hWF : m.WF) {a : Nat}
    (h : (m.lookup a).isSome) : a < m.next :=
  hWF.1 a h

/-- A live address has never been deleted. -/
theorem Mem.lookup_notMem_freed {m : Mem} (hWF : m.WF) {a : Nat}
    (h : (m.lookup a).isSome) : a ∉ m.freed :=
  hWF.2.1 a h

/-! ### The external `std::string` behaviour the header relies on -/

/-- `ArenaString::kInternalCapacity`: the inline (small-string) buffer
capacity of the `std::string` implementation the header is written
against. -/
def kInternalCapacity : Nat := 15

/-- A freshly constructed `std::string` holding `v` (copy or move
construction): inline capacity, or exactly the length beyond that.
`onAr` records where the object itself lives. -/
def stdNew (v : String) (onAr : Bool) : StrObj :=
  { content := v, capacity := max kInternalCapacity v.length, onArena := onAr }

/-- Plain `std::string` assignment: the content is replaced; the
capacity grows exactly to the length when it does not suffice and never
shrinks. -/
def stdAssign (s : StrObj) (v : String) : StrObj :=
  { s with content := v, capacity := max s.capacity v.length }

/-- A moved-from `std::string`: empty, back to the inline capacity. -/
def movedFrom (s : StrObj) : StrObj :=
  { s with content := "", capacity := kInternalCapacity }

/-! ### `ArenaString` (arenastring.h lines 63-119) -/

/-- `ArenaString::Assign(other, arena)`: with no arena, an ordinary
`assign`.  With an arena, if the current capacity is smaller than
`other.size()`, first install a new arena-allocated buffer of capacity
exactly `other.size()` (by overwriting the `StrRep` triple in place),
then copy the bytes in. -/
def ArenaString.Assign (s : StrObj) (other : String) (arena : Bool) : StrObj :=
  if !arena then
    stdAssign s other
  else if s.capacity < other.length then
    { s with content := other, capacity := other.length }
  else
    { s with content := other }

/-- Whether `ArenaString::Assign` allocates a new backing buffer: with
an arena this is the `Arena::CreateArray` call, without one it is the
growth reallocation inside `std::string::assign`.  In both branches it
happens exactly when the capacity does not suffice. -/
def ArenaString.AssignAllocates (s : StrObj) (other : String) : Bool :=
  decide (s.capacity < other.length)

/-- `ArenaString::MoveStorageToHeap()`: unless the buffer is the inline
one (capacity equal to `kInternalCapacity`), copy the content into a
fresh heap buffer of exactly `size()` bytes and overwrite the `StrRep`
triple.  Returns `this`, i.e. the object's own (unchanged) address. -/
def ArenaString.MoveStorageToHeap (s : StrObj) : StrObj :=
  if s.capacity ≠ kInternalCapacity then
    { s with capacity := s.content.length }
  else s

/-! ### `TaggedPtr` (arenastring.h lines 135-172) -/

/-- `TaggedPtr<std::string>`: an address plus the low tag bit.
`tag = true` means the pointee is an `ArenaString` (arena-backed
buffer); `tag = false` means a plain `std::string`. -/
structure TaggedPtr where
  addr : Nat
  tag : Bool
deriving Repr, DecidableEq

/-- `TaggedPtr::Set<std::string>(p)`: store `p` with the heap tag
(`class_tag<std::string>::value = false`). -/
def TaggedPtr.SetStd (a : Nat) : TaggedPtr := { addr := a, tag := false }

/-- `TaggedPtr::Set<ArenaString>(p)`: store `p` with the arena tag
(`class_tag<ArenaString>::value = true`). -/
def TaggedPtr.SetArena (a : Nat) : TaggedPtr := { addr := a, tag := true }

/-! ### `ArenaStringPtr` (arenastring.h lines 180-510) -/

/-- The field holder: exactly one tagged pointer. -/
structure ArenaStringPtr where
  ptr_ : TaggedPtr
deriving Repr, DecidableEq

/-- `ArenaStringPtr::IsDefault(default_value)`: the pointer carries the
`std::string` tag and equals the default sentinel's address. -/
def ArenaStringPtr.IsDefault (p : ArenaStringPtr) (d : Nat) : Bool :=
  !p.ptr_.tag && p.ptr_.addr == d

/-- `ArenaStringPtr::CreateInstance<FORCE_STD_STRING>(arena, initial)`:
with a non-null arena and no forcing, place an `ArenaString` on the
arena (default construction followed by `Assign(initial, arena)`);
otherwise `Arena::Create<std::string>` — a copy of `initial` placed on
the arena when one is present, on the heap when not. -/
def ArenaStringPtr.CreateInstance (forceStd : Bool) (arena : Bool)
    (initial : String) (m : Mem) : ArenaStringPtr × Mem :=
  if arena && !forceStd then
    let s0 : StrObj := { content := "", capacity := kInternalCapacity, onArena := true }
    let am := m.alloc (ArenaString.Assign s0 initial true)
    ({ ptr_ := TaggedPtr.SetArena am.1 }, am.2)
  else
    let am := m.alloc (stdNew initial arena)
    ({ ptr_ := TaggedPtr.SetStd am.1 }, am.2)

/-- `ArenaStringPtr::CreateInstanceNoArena(initial)`: always a plain
heap `new std::string(*initial)`. -/
def ArenaStringPtr.CreateInstanceNoArena (initial : String) (m : Mem) :
    ArenaStringPtr × Mem :=
  let am := m.alloc (stdNew initial false)
  ({ ptr_ := TaggedPtr.SetStd am.1 }, am.2)

/-- `ArenaStringPtr::Set(default_value, value, arena)`: when unset,
create a new instance holding a copy of `value`; otherwise assign the
existing payload in place (`std::string::assign` on the heap
representation, `ArenaString::Assign` on the arena representation). -/
def ArenaStringPtr.Set (p : ArenaStringPtr) (d : Nat) (value : String)
    (arena : Bool) (m : Mem) : ArenaStringPtr × Mem :=
  if p.IsDefault d then
    ArenaStringPtr.CreateInstance false arena value m
  else if p.ptr_.tag = false then
    match m.lookup p.ptr_.addr with
    | some s => (p, m.write p.ptr_.addr (stdAssign s value))
    | none => (p, m)
  else
    match m.lookup p.ptr_.addr with
    | some s => (p, m.write p.ptr_.addr (ArenaString.Assign s value arena))
    | none => (p, m)

/-- `ArenaStringPtr::Get()`: dereference the (untagged) pointer. -/
def ArenaStringPtr.Get (p : ArenaStringPtr) (m : Mem) : Option String :=
  (m.lookup p.ptr_.addr).map StrObj.content

/-- `ArenaStringPtr::Mutable(default_value, arena)`: when unset, create
a forced `std::string` instance holding a copy of the default and
return it; when the payload is an `ArenaString`, move its storage to
the heap and retag the pointer as `std::string`; otherwise return the
payload as is.  The returned address is the holder's payload. -/
def ArenaStringPtr.Mutable (p : ArenaStringPtr) (d : Nat) (arena : Bool)
    (m : Mem) : Nat × ArenaStringPtr × Mem :=
  if p.IsDefault d then
    let dval := ((m.lookup d).map StrObj.content).getD ""
    let pm := ArenaStringPtr.CreateInstance true arena dval m
    (pm.1.ptr_.addr, pm.1, pm.2)
  else if p.ptr_.tag then
    match m.lookup p.ptr_.addr with
    | some s =>
      (p.ptr_.addr, { ptr_ := TaggedPtr.SetStd p.ptr_.addr },
        m.write p.ptr_.addr (ArenaString.MoveStorageToHeap s))
    | none => (p.ptr_.addr, { ptr_ := TaggedPtr.SetStd p.ptr_.addr }, m)
  else
    (p.ptr_.addr, p, m)

/-- `ArenaStringPtr::ReleaseNonDefault(default_value, arena)`: with an
arena, the payload is arena-owned, so hand out a fresh heap string —
moved from the payload when it is a plain `std::string`, copied when it
is an `ArenaString` — and reset the pointer to the default sentinel.
With no arena, hand out the owned pointer itself and reset. -/
def ArenaStringPtr.ReleaseNonDefault (p : ArenaStringPtr) (d : Nat)
    (arena : Bool) (m : Mem) : Nat × ArenaStringPtr × Mem :=
  if arena then
    if p.ptr_.tag = false then
      match m.lookup p.ptr_.addr with
      | some s =>
        let am := (m.write p.ptr_.addr (movedFrom s)).alloc (stdNew s.content false)
        (am.1, { ptr_ := TaggedPtr.SetStd d }, am.2)
      | none =>
        let am := m.alloc (stdNew "" false)
        (am.1, { ptr_ := TaggedPtr.SetStd d }, am.2)
    else
      match m.lookup p.ptr_.addr with
      | some s =>
        let am := m.alloc (stdNew s.content false)
        (am.1, { ptr_ := TaggedPtr.SetStd d }, am.2)
      | none =>
        let am := m.alloc (stdNew "" false)
        (am.1, { ptr_ := TaggedPtr.SetStd d }, am.2)
  else
    (p.ptr_.addr, { ptr_ := TaggedPtr.SetStd d }, m)

/-- `ArenaStringPtr::Release(default_value, arena)`: `NULL` when unset,
otherwise `ReleaseNonDefault`. -/
def ArenaStringPtr.Release (p : ArenaStringPtr) (d : Nat) (arena : Bool)
    (m : Mem) : Option Nat × ArenaStringPtr × Mem :=
  if p.IsDefault d then
    (none, p, m)
  else
    let r := ArenaStringPtr.ReleaseNonDefault p d arena m
    (some r.1, r.2.1, r.2.2)

/-- `ArenaStringPtr::UnsafeArenaRelease(default_value, arena)`: `NULL`
when unset; otherwise hand out the payload itself (moving an
`ArenaString`'s storage to the heap first) and reset the pointer to the
default sentinel. -/
def ArenaStringPtr.UnsafeArenaRelease (p : ArenaStringPtr) (d : Nat)
    (m : Mem) : Option Nat × ArenaStringPtr × Mem :=
  if p.IsDefault d then
    (none, p, m)
  else if p.ptr_.tag then
    match m.lookup p.ptr_.addr with
    | some s =>
      (some p.ptr_.addr, { ptr_ := TaggedPtr.SetStd d },
        m.write p.ptr_.addr (ArenaString.MoveStorageToHeap s))
    | none => (some p.ptr_.addr, { ptr_ := TaggedPtr.SetStd d }, m)
  else
    (some p.ptr_.addr, { ptr_ := TaggedPtr.SetStd d }, m)

/-- `ArenaStringPtr::Destroy(default_value, arena)`: with no arena,
`delete` the payload unless the holder is unset; with an arena, do
nothing (the arena's teardown reclaims memory in bulk). -/
def ArenaStringPtr.Destroy (p : ArenaStringPtr) (d : Nat) (arena : Bool)
    (m : Mem) : Mem :=
  if !arena then
    if !(p.IsDefault d) then m.free p.ptr_.addr else m
  else m

/-- `ArenaStringPtr::SetAllocated(default_value, value, arena)`: first,
when there is no arena and the holder is not unset, destroy the prior
payload; then adopt `value` (registering it with the arena when one is
present) or reset to the default sentinel when `value` is null. -/
def ArenaStringPtr.SetAllocated (p : ArenaStringPtr) (d : Nat)
    (value : Option Nat) (arena : Bool) (m : Mem) : ArenaStringPtr × Mem :=
  let m1 := if !arena && !(p.IsDefault d) then p.Destroy d arena m else m
  match value with
  | some v =>
    let m2 := if arena then m1.own v else m1
    ({ ptr_ := TaggedPtr.SetStd v }, m2)
  | none => ({ ptr_ := TaggedPtr.SetStd d }, m1)

/-- `ArenaStringPtr::UnsafeArenaSetAllocated(default_value, value,
arena)`: adopt `value` (or reset to the sentinel) without freeing or
registering anything. -/
def ArenaStringPtr.UnsafeArenaSetAllocated (d : Nat) (value : Option Nat) :
    ArenaStringPtr :=
  match value with
  | some v => { ptr_ := TaggedPtr.SetStd v }
  | none => { ptr_ := TaggedPtr.SetStd d }

/-- `ArenaStringPtr::Swap(other)`, the production (`NDEBUG`) path:
`std::swap(ptr_, other->ptr_)` — a pure exchange of the two tagged
pointers; the store is not touched. -/
def ArenaStringPtr.Swap (p q : ArenaStringPtr) : ArenaStringPtr × ArenaStringPtr :=
  ({ ptr_ := q.ptr_ }, { ptr_ := p.ptr_ })

/-- `ArenaStringPtr::ClearToEmpty(default_value, arena)`: nothing when
unset, otherwise `clear()` the payload in place. -/
def ArenaStringPtr.ClearToEmpty (p : ArenaStringPtr) (d : Nat) (m : Mem) : Mem :=
  if p.IsDefault d then m
  else
    match m.lookup p.ptr_.addr with
    | some s => m.write p.ptr_.addr { s with content := "" }
    | none => m

/-- `ArenaStringPtr::ClearToDefault(default_value, arena)`: nothing
when unset, otherwise copy-assign `*default_value` into the existing
payload, reusing its allocation. -/
def ArenaStringPtr.ClearToDefault (p : ArenaStringPtr) (d : Nat) (m : Mem) : Mem :=
  if p.IsDefault d then m
  else
    match m.lookup p.ptr_.addr with
    | some s => m.write p.ptr_.addr (stdAssign s (((m.lookup d).map StrObj.content).getD ""))
    | none => m

/-- `ArenaStringPtr::UnsafeSetDefault(default_value)`: point at the
default sentinel, disregarding the previous value of `ptr_`. -/
def ArenaStringPtr.UnsafeSetDefault (d : Nat) : ArenaStringPtr :=
  { ptr_ := TaggedPtr.SetStd d }

/-! ### The `NoArena` operation set (arenastring.h lines 392-477) -/

/-- `ArenaStringPtr::SetNoArena(default_value, const string&)`: when
unset, `CreateInstanceNoArena`; otherwise assign in place through the
untagged pointer. -/
def ArenaStringPtr.SetNoArena (p : ArenaStringPtr) (d : Nat) (value : String)
    (m : Mem) : ArenaStringPtr × Mem :=
  if p.IsDefault d then
    ArenaStringPtr.CreateInstanceNoArena value m
  else
    match m.lookup p.ptr_.addr with
    | some s => (p, m.write p.ptr_.addr (stdAssign s value))
    | none => (p, m)

/-- `ArenaStringPtr::SetNoArena(default_value, string&&)`: when unset,
`new std::string(std::move(value))`; otherwise move-assign in place. -/
def ArenaStringPtr.SetNoArenaMove (p : ArenaStringPtr) (d : Nat) (value : String)
    (m : Mem) : ArenaStringPtr × Mem :=
  if p.IsDefault d then
    let am := m.alloc (stdNew value false)
    ({ ptr_ := TaggedPtr.SetStd am.1 }, am.2)
  else
    match m.lookup p.ptr_.addr with
    | some s => (p, m.write p.ptr_.addr (stdAssign s value))
    | none => (p, m)

/-- `ArenaStringPtr::GetNoArena()`. -/
def ArenaStringPtr.GetNoArena (p : ArenaStringPtr) (m : Mem) : Option String :=
  (m.lookup p.ptr_.addr).map StrObj.content

/-- `ArenaStringPtr::MutableNoArena(default_value)`: when unset, create
a heap copy of the default; return the payload. -/
def ArenaStringPtr.MutableNoArena (p : ArenaStringPtr) (d : Nat) (m : Mem) :
    Nat × ArenaStringPtr × Mem :=
  if p.IsDefault d then
    let dval := ((m.lookup d).map StrObj.content).getD ""
    let pm := ArenaStringPtr.CreateInstanceNoArena dval m
    (pm.1.ptr_.addr, pm.1, pm.2)
  else
    (p.ptr_.addr, p, m)

/-- `ArenaStringPtr::ReleaseNonDefaultNoArena(default_value)`. -/
def ArenaStringPtr.ReleaseNonDefaultNoArena (p : ArenaStringPtr) (d : Nat)
    (m : Mem) : Nat × ArenaStringPtr × Mem :=
  (p.ptr_.addr, { ptr_ := TaggedPtr.SetStd d }, m)

/-- `ArenaStringPtr::ReleaseNoArena(default_value)`. -/
def ArenaStringPtr.ReleaseNoArena (p : ArenaStringPtr) (d : Nat) (m : Mem) :
    Option Nat × ArenaStringPtr × Mem :=
  if p.IsDefault d then
    (none, p, m)
  else
    let r := ArenaStringPtr.ReleaseNonDefaultNoArena p d m
    (some r.1, r.2.1, r.2.2)

/-- `ArenaStringPtr::SetAllocatedNoArena(default_value, value)`:
`delete` the prior payload unless unset, then adopt `value` or reset to
the sentinel. -/
def ArenaStringPtr.SetAllocatedNoArena (p : ArenaStringPtr) (d : Nat)
    (value : Option Nat) (m : Mem) : ArenaStringPtr × Mem :=
  let m1 := if !(p.IsDefault d) then m.free p.ptr_.addr else m
  match value with
  | some v => ({ ptr_ := TaggedPtr.SetStd v }, m1)
  | none => ({ ptr_ := TaggedPtr.SetStd d }, m1)

/-- `ArenaStringPtr::DestroyNoArena(default_value)`: `delete` the
payload unless unset. -/
def ArenaStringPtr.DestroyNoArena (p : ArenaStringPtr) (d : Nat) (m : Mem) : Mem :=
  if !(p.IsDefault d) then m.free p.ptr_.addr else m

/-- `ArenaStringPtr::ClearToEmptyNoArena(default_value)`. -/
def ArenaStringPtr.ClearToEmptyNoArena (p : ArenaStringPtr) (d : Nat) (m : Mem) : Mem :=
  if p.IsDefault d then m
  else
    match m.lookup p.ptr_.addr with
    | some s => m.write p.ptr_.addr { s with content := "" }
    | none => m

/-- `ArenaStringPtr::ClearToDefaultNoArena(default_value)`. -/
def ArenaStringPtr.ClearToDefaultNoArena (p : ArenaStringPtr) (d : Nat) (m : Mem) : Mem :=
  if p.IsDefault d then m
  else
    match m.lookup p.ptr_.addr with
    | some s => m.write p.ptr_.addr (stdAssign s (((m.lookup d).map StrObj.content).getD ""))
    | none => m

/-! ### Sequences of `NoArena` operations -/

/-- One operation from the `NoArena` operation set of
`ArenaStringPtr`. -/
inductive NoArenaOp where
  | setCopy (v : String)
  | setMove (v : String)
  | mutate
  | release
  | setAlloc (v : Option Nat)
  | clearToEmpty
  | clearToDefault
  | destroy
deriving Repr, DecidableEq

/-- Run one `NoArena` operation on a holder/store pair (returned
pointers of `Mutable`/`Release` are discarded; only the holder and the
store evolve). -/
def NoArenaOp.step (d : Nat) (s : ArenaStringPtr × Mem) (op : NoArenaOp) :
    ArenaStringPtr × Mem :=
  match op with
  | .setCopy v => ArenaStringPtr.SetNoArena s.1 d v s.2
  | .setMove v => ArenaStringPtr.SetNoArenaMove s.1 d v s.2
  | .mutate =>
    let r := ArenaStringPtr.MutableNoArena s.1 d s.2
    (r.2.1, r.2.2)
  | .release =>
    let r := ArenaStringPtr.ReleaseNoArena s.1 d s.2
    (r.2.1, r.2.2)
  | .setAlloc v => ArenaStringPtr.SetAllocatedNoArena s.1 d v s.2
  | .clearToEmpty => (s.1, ArenaStringPtr.ClearToEmptyNoArena s.1 d s.2)
  | .clearToDefault => (s.1, ArenaStringPtr.ClearToDefaultNoArena s.1 d s.2)
  | .destroy => (s.1, ArenaStringPtr.DestroyNoArena s.1 d s.2)

/-- Run a sequence of `NoArena` operations. -/
def NoArenaOp.run (d : Nat) (s : ArenaStringPtr × Mem) (ops : List NoArenaOp) :
    ArenaStringPtr × Mem :=
  ops.foldl (NoArenaOp.step d) s

/-! ### Basic facts about the model -/

@[simp] theorem stdAssign_content (s : StrObj) (v : String) :
    (stdAssign s v).content = v := rfl

@[simp] theorem stdNew_content (v : String) (b : Bool) :
    (stdNew v b).content = v := rfl

@[simp] theorem stdNew_onArena (v : String) (b : Bool) :
    (stdNew v b).onArena = b := rfl

@[simp] theorem ArenaString.Assign_content (s : StrObj) (v : String) (a : Bool) :
    (ArenaString.Assign s v a).content = v := by
  unfold ArenaString.Assign
  split
  · rfl
  · split <;> rfl

@[simp] theorem ArenaString.MoveStorageToHeap_content (s : StrObj) :
    (ArenaString.MoveStorageToHeap s).content = s.content := by
  unfold ArenaString.MoveStorageToHeap
  split <;> rfl

theorem ArenaStringPtr.isDefault_iff (p : ArenaStringPtr) (d : Nat) :
    p.IsDefault d = true ↔ p.ptr_.tag = false ∧ p.ptr_.addr = d := by
  simp [ArenaStringPtr.IsDefault, Bool.not_eq_true']

@[simp] theorem ArenaStringPtr.isDefault_mk (a : Nat) (t : Bool) (d : Nat) :
    (ArenaStringPtr.mk { addr := a, tag := t }).IsDefault d = (!t && a == d) := by
  simp [ArenaStringPtr.IsDefault]

@[simp] theorem ArenaStringPtr.isDefault_setStd (a d : Nat) :
    (ArenaStringPtr.mk (TaggedPtr.SetStd a)).IsDefault d = (a == d) := by
  simp [ArenaStringPtr.IsDefault, TaggedPtr.SetStd]

@[simp] theorem ArenaStringPtr.isDefault_setArena (a d : Nat) :
    (ArenaStringPtr.mk (TaggedPtr.SetArena a)).IsDefault d = false := by
  simp [ArenaStringPtr.IsDefault, TaggedPtr.SetArena]

@[simp] theorem ArenaStringPtr.unsafeSetDefault_isDefault (d : Nat) :
    (ArenaStringPtr.UnsafeSetDefault d).IsDefault d = true := by
  simp [ArenaStringPtr.UnsafeSetDefault]

/-- A holder is well formed with respect to the default sentinel `d` in
store `m`: its payload is live, and pointing at `d` happens only with
the `std::string` tag (the sentinel is a plain `std::string`). -/
def HolderWF (p : ArenaStringPtr) (d : Nat) (m : Mem) : Prop :=
  (m.lookup p.ptr_.addr).isSome ∧ (p.ptr_.addr = d → p.ptr_.tag = false)

/-- A well-formed holder that is not unset does not point at the
sentinel. -/
theorem HolderWF.addr_ne {p : ArenaStringPtr} {d : Nat} {m : Mem}
    (hp : HolderWF p d m) (h : p.IsDefault d = false) : p.ptr_.addr ≠ d := by
  intro had
  have htag := hp.2 had
  rw [← Bool.not_eq_true, ArenaStringPtr.isDefault_iff] at h
  exact h ⟨htag, had⟩

/-! ### Concrete fixtures used to instantiate the theorems -/

/-- The default sentinel object used in concrete instantiations. -/
def defaultObj : StrObj := { content := "", capacity := 15, onArena := false }

/-- A store holding just the default sentinel, at address `0`. -/
def m0 : Mem :=
  { next := 1
    live := fun a => if a = 0 then some defaultObj else none
    freed := []
    arenaOwned := [] }

/-- An unset holder for sentinel address `0`. -/
def p0 : ArenaStringPtr := ArenaStringPtr.UnsafeSetDefault 0

theorem m0_WF : m0.WF := by
  refine ⟨?_, ?_, ?_⟩
  · intro a h
    by_cases h0 : a = 0
    · simp [h0, m0]
    · simp [m0, Mem.lookup, h0] at h
  · intro a _
    simp [m0]
  · intro a h
    simp [m0] at h

theorem m0_lookup : m0.lookup 0 = some defaultObj := rfl

theorem p0_WF : HolderWF p0 0 m0 := by
  constructor
  · decide
  · intro _
    rfl

/-- A heap-owned payload object used in concrete instantiations. -/
def heapObj : StrObj := { content := "hello", capacity := 15, onArena := false }

/-- An arena-resident payload object (external arena buffer, capacity
18 above the inline threshold). -/
def arenaObj : StrObj := { content := "hello world, long!", capacity := 18, onArena := true }

/-- A store holding the sentinel at `0` and `heapObj` at `1`. -/
def m1 : Mem :=
  { next := 2
    live := fun a => if a = 0 then some defaultObj else if a = 1 then some heapObj else none
    freed := []
    arenaOwned := [] }

/-- A holder owning the heap payload at address `1`. -/
def p1 : ArenaStringPtr := { ptr_ := TaggedPtr.SetStd 1 }

theorem m1_WF : m1.WF := by
  refine ⟨?_, ?_, ?_⟩
  · intro a h
    by_cases h0 : a = 0
    · simp [h0, m1]
    · by_cases h1 : a = 1
      · simp [h1, m1]
      · simp [m1, Mem.lookup, h0, h1] at h
  · intro a _
    simp [m1]
  · intro a h
    simp [m1] at h

theorem m1_lookup : m1.lookup 0 = some defaultObj := rfl

theorem p1_WF : HolderWF p1 0 m1 := by
  constructor
  · decide
  · intro h
    simp [p1, TaggedPtr.SetStd] at h

/-- A store holding the sentinel at `0` and `arenaObj` at `1`. -/
def m2 : Mem :=
  { next := 2
    live := fun a => if a = 0 then some defaultObj else if a = 1 then some arenaObj else none
    freed := []
    arenaOwned := [] }

/-- A holder whose payload is the `ArenaString` at address `1`. -/
def p2 : ArenaStringPtr := { ptr_ := TaggedPtr.SetArena 1 }

theorem m2_WF : m2.WF := by
  refine ⟨?_, ?_, ?_⟩
  · intro a h
    by_cases h0 : a = 0
    · simp [h0, m2]
    · by_cases h1 : a = 1
      · simp [h1, m2]
      · simp [m2, Mem.lookup, h0, h1] at h
  · intro a _
    simp [m2]
  · intro a h
    simp [m2] at h

theorem m2_lookup : m2.lookup 0 = some defaultObj := rfl

theorem p2_WF : HolderWF p2 0 m2 := by
  constructor
  · decide
  · intro h
    simp [p2, TaggedPtr.SetArena] at h

/-! ### Claims -/

/-- Claim C3: for every string value `v` and every well-formed holder
state, after `Set(default, v, arena)` a `Get` reads `v`; and after a
subsequent `ClearToDefault(default)` a `Get` reads the content of the
default sentinel. -/
theorem c3_set_get_clear_to_default (p : ArenaStringPtr) (d : Nat) (v : String)
    (arena : Bool) (m : Mem) (dobj : StrObj) (hWF : m.WF)
    (hd : m.lookup d = some dobj) (hp : HolderWF p d m) :
    ArenaStringPtr.Get (p.Set d v arena m).1 (p.Set d v arena m).2 = some v ∧
    ArenaStringPtr.Get (p.Set d v arena m).1
      (ArenaStringPtr.ClearToDefault (p.Set d v arena m).1 d (p.Set d v arena m).2)
      = some dobj.content := by
  have hdn : d < m.next := Mem.lookup_lt_next hWF (by simp [hd])
  have hne : d ≠ m.next := Nat.ne_of_lt hdn
  by_cases hdef : p.IsDefault d = true
  · cases arena
    · simp [ArenaStringPtr.Set, hdef, ArenaStringPtr.CreateInstance,
        ArenaStringPtr.Get, ArenaStringPtr.ClearToDefault, TaggedPtr.SetStd,
        TaggedPtr.SetArena, hne, hd, Ne.symm hne]
    · simp [ArenaStringPtr.Set, hdef, ArenaStringPtr.CreateInstance,
        ArenaStringPtr.Get, ArenaStringPtr.ClearToDefault, TaggedPtr.SetStd,
        TaggedPtr.SetArena, hne, hd, Ne.symm hne]
  · rw [Bool.not_eq_true] at hdef
    obtain ⟨s, hs⟩ := Option.isSome_iff_exists.mp hp.1
    have haddr : p.ptr_.addr ≠ d := hp.addr_ne hdef
    by_cases htag : p.ptr_.tag = false
    · simp [ArenaStringPtr.Set, hdef, htag, hs, ArenaStringPtr.Get,
        ArenaStringPtr.ClearToDefault, Ne.symm haddr, hd]
    · simp [ArenaStringPtr.Set, hdef, htag, hs, ArenaStringPtr.Get,
        ArenaStringPtr.ClearToDefault, Ne.symm haddr, hd]

/-- Witness for C3 at a concrete input: an unset holder over a
one-object store, set on an arena. -/
theorem c3_witness :
    ArenaStringPtr.Get (p0.Set 0 "abc" true m0).1 (p0.Set 0 "abc" true m0).2 = some "abc" ∧
    ArenaStringPtr.Get (p0.Set 0 "abc" true m0).1
      (ArenaStringPtr.ClearToDefault (p0.Set 0 "abc" true m0).1 0 (p0.Set 0 "abc" true m0).2)
      = some defaultObj.content :=
  c3_set_get_clear_to_default p0 0 "abc" true m0 defaultObj m0_WF m0_lookup p0_WF

/-- Claim C10: once a holder is heap-owned (heap tag, not pointing at
the sentinel), `Set` never migrates it to the arena representation,
even when a non-null arena is supplied: it assigns the existing
`std::string` in place, the tagged pointer (address and tag) is
unchanged, the store changes at that address only, and a `Get` then
reads the new value. -/
theorem c10_heap_set_stays_heap (p : ArenaStringPtr) (d : Nat) (v : String)
    (arena : Bool) (m : Mem) (s : StrObj)
    (htag : p.ptr_.tag = false) (hne : p.ptr_.addr ≠ d)
    (hs : m.lookup p.ptr_.addr = some s) :
    (p.Set d v arena m).1 = p ∧
    (p.Set d v arena m).2 = m.write p.ptr_.addr (stdAssign s v) ∧
    ArenaStringPtr.Get p (p.Set d v arena m).2 = some v ∧
    (∀ b, b ≠ p.ptr_.addr → (p.Set d v arena m).2.lookup b = m.lookup b) := by
  have hdef : p.IsDefault d = false := by
    rw [← Bool.not_eq_true, ArenaStringPtr.isDefault_iff]
    intro hc
    exact hne hc.2
  refine ⟨?_, ?_, ?_, ?_⟩
  · simp [ArenaStringPtr.Set, hdef, htag, hs]
  · simp [ArenaStringPtr.Set, hdef, htag, hs]
  · simp [ArenaStringPtr.Set, hdef, htag, hs, ArenaStringPtr.Get]
  · intro b hb
    simp [ArenaStringPtr.Set, hdef, htag, hs, Mem.lookup_write_ne _ _ hb]

/-- Witness for C10 at a concrete input: the heap-owned holder `p1`
set through a non-null arena; its pointer is unchanged and the sentinel
at address `0` is untouched. -/
theorem c10_witness :
    (p1.Set 0 "world" true m1).1 = p1 ∧
    ArenaStringPtr.Get p1 (p1.Set 0 "world" true m1).2 = some "world" ∧
    Mem.lookup (p1.Set 0 "world" true m1).2 0 = m1.lookup 0 :=
  ⟨(c10_heap_set_stays_heap p1 0 "world" true m1 heapObj rfl (by decide) rfl).1,
   (c10_heap_set_stays_heap p1 0 "world" true m1 heapObj rfl (by decide) rfl).2.2.1,
   (c10_heap_set_stays_heap p1 0 "world" true m1 heapObj rfl (by decide) rfl).2.2.2 0 (by decide)⟩

/-- Claim C5: the production-path swap is a pure exchange of the two
tagged pointers and touches no payload bytes (the store is not an
argument of `Swap` at all): after setting `a` to `x` and `b` to `y`
from the unset state, swapping makes `a` read `y` and `b` read `x`,
and each holder holds exactly the tagged-pointer value the other held
before. -/
theorem c5_swap_pure_exchange (d : Nat) (x y : String) (aa ab : Bool) (m : Mem) :
    let u := ArenaStringPtr.UnsafeSetDefault d
    let s1 := u.Set d x aa m
    let s2 := s1.1.Swap (u.Set d y ab s1.2).1
    s2.1.ptr_ = (u.Set d y ab s1.2).1.ptr_ ∧
    s2.2.ptr_ = s1.1.ptr_ ∧
    ArenaStringPtr.Get s2.1 (u.Set d y ab s1.2).2 = some y ∧
    ArenaStringPtr.Get s2.2 (u.Set d y ab s1.2).2 = some x := by
  intro u s1 s2
  have hm : m.next ≠ m.next + 1 := by omega
  refine ⟨rfl, rfl, ?_, ?_⟩ <;>
    cases aa <;> cases ab <;>
      simp [u, s1, s2, ArenaStringPtr.Set, ArenaStringPtr.CreateInstance,
        ArenaStringPtr.Swap, ArenaStringPtr.Get, TaggedPtr.SetStd, TaggedPtr.SetArena,
        hm, ArenaStringPtr.UnsafeSetDefault]

/-- Claim C1: `Release(default, arena)` on an unset holder returns
`NULL`; on a non-unset holder it returns a payload that is heap-owned
and independent of any arena — a fresh heap copy/move of the current
content when an arena is present, the owned pointer itself when not —
and the holder is afterwards back in the unset state.
`UnsafeArenaRelease` likewise always leaves the holder unset. -/
theorem c1_release_spec (p : ArenaStringPtr) (d : Nat) (arena : Bool) (m : Mem)
    (hWF : m.WF) (hp : HolderWF p d m) :
    (p.IsDefault d = true → (p.Release d arena m).1 = none) ∧
    (p.IsDefault d = false →
      ∃ r s, m.lookup p.ptr_.addr = some s ∧ (p.Release d arena m).1 = some r ∧
        (arena = true →
          (p.Release d arena m).2.2.lookup r = some (stdNew s.content false) ∧
          r ∉ (p.Release d arena m).2.2.arenaOwned) ∧
        (arena = false →
          r = p.ptr_.addr ∧ (p.Release d arena m).2.2.lookup r = some s)) ∧
    (p.Release d arena m).2.1.IsDefault d = true ∧
    (p.UnsafeArenaRelease d m).2.1.IsDefault d = true := by
  have hown : m.next ∉ m.arenaOwned := fun hc => absurd (hWF.2.2 _ hc) (lt_irrefl _)
  obtain ⟨s, hs⟩ := Option.isSome_iff_exists.mp hp.1
  by_cases hdef : p.IsDefault d = true
  · refine ⟨fun _ => ?_, fun hc => absurd hdef (by simp [hc]), ?_, ?_⟩
    · simp [ArenaStringPtr.Release, hdef]
    · simp [ArenaStringPtr.Release, hdef]
    · simp [ArenaStringPtr.UnsafeArenaRelease, hdef]
  · rw [Bool.not_eq_true] at hdef
    refine ⟨fun hc => absurd hc (by simp [hdef]), fun _ => ?_, ?_, ?_⟩
    · cases harena : arena
      · refine ⟨p.ptr_.addr, s, hs, ?_, ?_, ?_⟩
        · simp [ArenaStringPtr.Release, ArenaStringPtr.ReleaseNonDefault, hdef]
        · intro hc
          cases hc
        · intro _
          exact ⟨rfl, by
            simpa [ArenaStringPtr.Release, ArenaStringPtr.ReleaseNonDefault, hdef] using hs⟩
      · by_cases htag : p.ptr_.tag = false
        · refine ⟨m.next, s, hs, ?_, ?_, ?_⟩
          · simp [ArenaStringPtr.Release, ArenaStringPtr.ReleaseNonDefault, hdef, htag, hs]
          · intro _
            constructor
            · simp [ArenaStringPtr.Release, ArenaStringPtr.ReleaseNonDefault, hdef, htag, hs]
            · simpa [ArenaStringPtr.Release, ArenaStringPtr.ReleaseNonDefault, hdef, htag, hs]
                using hown
          · intro hc
            cases hc
        · refine ⟨m.next, s, hs, ?_, ?_, ?_⟩
          · simp [ArenaStringPtr.Release, ArenaStringPtr.ReleaseNonDefault, hdef, htag, hs]
          · intro _
            constructor
            · simp [ArenaStringPtr.Release, ArenaStringPtr.ReleaseNonDefault, hdef, htag, hs]
            · simpa [ArenaStringPtr.Release, ArenaStringPtr.ReleaseNonDefault, hdef, htag, hs]
                using hown
          · intro hc
            cases hc
    · by_cases htag : p.ptr_.tag = false <;>
        cases arena <;>
          simp [ArenaStringPtr.Release, ArenaStringPtr.ReleaseNonDefault, hdef, htag, hs,
            TaggedPtr.SetStd]
    · by_cases htag : p.ptr_.tag = false <;>
        simp [ArenaStringPtr.UnsafeArenaRelease, hdef, htag, hs, TaggedPtr.SetStd]

/-- Witness for C1 at a concrete input: the heap-owned holder `p1`
released against a non-null arena. -/
theorem c1_witness :
    (p1.IsDefault 0 = true → (p1.Release 0 true m1).1 = none) ∧
    (p1.IsDefault 0 = false →
      ∃ r s, m1.lookup p1.ptr_.addr = some s ∧ (p1.Release 0 true m1).1 = some r ∧
        (true = true →
          (p1.Release 0 true m1).2.2.lookup r = some (stdNew s.content false) ∧
          r ∉ (p1.Release 0 true m1).2.2.arenaOwned) ∧
        (true = false →
          r = p1.ptr_.addr ∧ (p1.Release 0 true m1).2.2.lookup r = some s)) ∧
    (p1.Release 0 true m1).2.1.IsDefault 0 = true ∧
    (p1.UnsafeArenaRelease 0 m1).2.1.IsDefault 0 = true :=
  c1_release_spec p1 0 true m1 m1_WF p1_WF

/-- Claim C2: round-trip.  `Set(default, v, arena)` followed by
`Release(default, arena)` returns a payload whose content equals `v`;
the holder is unset after the release, and overwriting the released
object does not change what the field reads (the sentinel's
content). -/
theorem c2_set_release_roundtrip (p : ArenaStringPtr) (d : Nat) (v : String)
    (arena : Bool) (m : Mem) (dobj : StrObj) (hWF : m.WF)
    (hd : m.lookup d = some dobj) (hp : HolderWF p d m)
    (htag : arena = false → p.ptr_.tag = false) :
    let s1 := p.Set d v arena m
    let rel := ArenaStringPtr.Release s1.1 d arena s1.2
    ∃ r, rel.1 = some r ∧
      (rel.2.2.lookup r).map StrObj.content = some v ∧
      rel.2.1.IsDefault d = true ∧
      ∀ o : StrObj, ArenaStringPtr.Get rel.2.1 (rel.2.2.write r o) = some dobj.content := by
  intro s1 rel
  have hdn : d < m.next := Mem.lookup_lt_next hWF (by simp [hd])
  have hne : d ≠ m.next := Nat.ne_of_lt hdn
  have hne1 : d ≠ m.next + 1 := by omega
  by_cases hdef : p.IsDefault d = true
  · cases arena
    · exact ⟨m.next, by
        simp [s1, rel, ArenaStringPtr.Set, hdef, ArenaStringPtr.CreateInstance,
          ArenaStringPtr.Release, ArenaStringPtr.ReleaseNonDefault,
          ArenaStringPtr.Get, TaggedPtr.SetStd, TaggedPtr.SetArena,
          hne, Ne.symm hne, hne1, Ne.symm hne1, hd]⟩
    · exact ⟨m.next + 1, by
        simp [s1, rel, ArenaStringPtr.Set, hdef, ArenaStringPtr.CreateInstance,
          ArenaStringPtr.Release, ArenaStringPtr.ReleaseNonDefault,
          ArenaStringPtr.Get, TaggedPtr.SetStd, TaggedPtr.SetArena,
          hne, Ne.symm hne, hne1, Ne.symm hne1, hd]⟩
  · rw [Bool.not_eq_true] at hdef
    obtain ⟨s, hs⟩ := Option.isSome_iff_exists.mp hp.1
    have haddr : p.ptr_.addr ≠ d := hp.addr_ne hdef
    cases arena
    · have ht := htag rfl
      exact ⟨p.ptr_.addr, by
        simp [s1, rel, ArenaStringPtr.Set, hdef, ht, hs,
          ArenaStringPtr.Release, ArenaStringPtr.ReleaseNonDefault,
          ArenaStringPtr.Get, TaggedPtr.SetStd,
          haddr, Ne.symm haddr, hd]⟩
    · by_cases ht : p.ptr_.tag = false
      · exact ⟨m.next, by
          simp [s1, rel, ArenaStringPtr.Set, hdef, ht, hs,
            ArenaStringPtr.Release, ArenaStringPtr.ReleaseNonDefault,
            ArenaStringPtr.Get, TaggedPtr.SetStd,
            haddr, Ne.symm haddr, hne, Ne.symm hne, hd]⟩
      · exact ⟨m.next, by
          simp [s1, rel, ArenaStringPtr.Set, hdef, ht, hs,
            ArenaStringPtr.Release, ArenaStringPtr.ReleaseNonDefault,
            ArenaStringPtr.Get, TaggedPtr.SetStd,
            haddr, Ne.symm haddr, hne, Ne.symm hne, hd]⟩

/-- Witness for C2 at a concrete input: round-trip of `"roundtrip"`
through an unset holder on an arena. -/
theorem c2_witness :
    let s1 := p0.Set 0 "roundtrip" true m0
    let rel := ArenaStringPtr.Release s1.1 0 true s1.2
    ∃ r, rel.1 = some r ∧
      (rel.2.2.lookup r).map StrObj.content = some "roundtrip" ∧
      rel.2.1.IsDefault 0 = true ∧
      ∀ o : StrObj, ArenaStringPtr.Get rel.2.1 (rel.2.2.write r o) = some defaultObj.content :=
  c2_set_release_roundtrip p0 0 "roundtrip" true m0 defaultObj m0_WF m0_lookup p0_WF
    (fun h => nomatch h)

/-- Claim C6: destroy asymmetry.  With no arena, `Destroy` frees the
owned heap payload exactly when the holder is not unset (and the
sentinel is never freed); with a non-null arena, `Destroy` is a no-op
and the store is untouched. -/
theorem c6_destroy_asymmetry (p : ArenaStringPtr) (d : Nat) (arena : Bool)
    (m : Mem) (hWF : m.WF) (hp : HolderWF p d m) (hd : (m.lookup d).isSome) :
    (arena = true → p.Destroy d arena m = m) ∧
    (arena = false → p.IsDefault d = true → p.Destroy d arena m = m) ∧
    (arena = false → p.IsDefault d = false →
      (p.Destroy d arena m).lookup p.ptr_.addr = none ∧
      (p.Destroy d arena m).freed = m.freed ++ [p.ptr_.addr] ∧
      (p.Destroy d arena m).lookup d = m.lookup d ∧
      d ∉ (p.Destroy d arena m).freed) := by
  refine ⟨?_, ?_, ?_⟩
  · intro h
    simp [ArenaStringPtr.Destroy, h]
  · intro h hdef
    simp [ArenaStringPtr.Destroy, h, hdef]
  · intro h hdef
    have haddr : p.ptr_.addr ≠ d := hp.addr_ne hdef
    have hdf : d ∉ m.freed := Mem.lookup_notMem_freed hWF hd
    refine ⟨?_, ?_, ?_, ?_⟩
    · simp [ArenaStringPtr.Destroy, h, hdef]
    · simp [ArenaStringPtr.Destroy, h, hdef]
    · simp [ArenaStringPtr.Destroy, h, hdef, Ne.symm haddr]
    · simp [ArenaStringPtr.Destroy, h, hdef, hdf, Ne.symm haddr]

/-- Witness for C6 at a concrete input: the heap-owned holder `p1`
destroyed with no arena.  Its payload is freed, the sentinel is not. -/
theorem c6_witness :
    (false = true → p1.Destroy 0 false m1 = m1) ∧
    (false = false → p1.IsDefault 0 = true → p1.Destroy 0 false m1 = m1) ∧
    (false = false → p1.IsDefault 0 = false →
      (p1.Destroy 0 false m1).lookup p1.ptr_.addr = none ∧
      (p1.Destroy 0 false m1).freed = m1.freed ++ [p1.ptr_.addr] ∧
      (p1.Destroy 0 false m1).lookup 0 = m1.lookup 0 ∧
      0 ∉ (p1.Destroy 0 false m1).freed) :=
  c6_destroy_asymmetry p1 0 false m1 m1_WF p1_WF (by decide)

/-- Claim C7: mutable promotion.  On an arena-resident payload,
`Mutable` moves the storage to the heap, so the holder afterwards
carries the heap representation tag at the same address, the returned
pointer is the holder's current payload (content preserved), and later
direct mutation through that pointer is read back by the field. -/
theorem c7_mutable_promotes_to_heap (p : ArenaStringPtr) (d : Nat)
    (arena : Bool) (m : Mem) (s : StrObj)
    (htag : p.ptr_.tag = true) (hs : m.lookup p.ptr_.addr = some s) :
    let r := p.Mutable d arena m
    r.1 = p.ptr_.addr ∧
    r.2.1.ptr_ = TaggedPtr.SetStd p.ptr_.addr ∧
    r.2.2.lookup r.1 = some (ArenaString.MoveStorageToHeap s) ∧
    ArenaStringPtr.Get r.2.1 r.2.2 = some s.content ∧
    ∀ w : String,
      ArenaStringPtr.Get r.2.1
        (r.2.2.write r.1 (stdAssign (ArenaString.MoveStorageToHeap s) w)) = some w := by
  intro r
  have hdef : p.IsDefault d = false := by
    simp [ArenaStringPtr.IsDefault, htag]
  refine ⟨?_, ?_, ?_, ?_, ?_⟩ <;>
    simp [r, ArenaStringPtr.Mutable, hdef, htag, hs, ArenaStringPtr.Get, TaggedPtr.SetStd]

/-- Witness for C7 at a concrete input: the arena-resident holder `p2`
promoted by `Mutable`. -/
theorem c7_witness :
    let r := p2.Mutable 0 true m2
    r.1 = p2.ptr_.addr ∧
    r.2.1.ptr_ = TaggedPtr.SetStd p2.ptr_.addr ∧
    r.2.2.lookup r.1 = some (ArenaString.MoveStorageToHeap arenaObj) ∧
    ArenaStringPtr.Get r.2.1 r.2.2 = some arenaObj.content ∧
    ∀ w : String,
      ArenaStringPtr.Get r.2.1
        (r.2.2.write r.1 (stdAssign (ArenaString.MoveStorageToHeap arenaObj) w)) = some w :=
  c7_mutable_promotes_to_heap p2 0 true m2 arenaObj rfl rfl

/-- Claim C8: `SetAllocated(default, NULL, arena)` leaves the holder
unset; with no arena the prior owned payload is deleted and appears
exactly once in the freed list (no double free); with an arena nothing
is freed locally (the store is unchanged). -/
theorem c8_set_allocated_null_resets (p : ArenaStringPtr) (d : Nat)
    (arena : Bool) (m : Mem) (hWF : m.WF) (hp : HolderWF p d m) :
    let r := p.SetAllocated d none arena m
    r.1.IsDefault d = true ∧
    (arena = true → r.2 = m) ∧
    (arena = false → p.IsDefault d = true → r.2 = m) ∧
    (arena = false → p.IsDefault d = false →
      r.2.lookup p.ptr_.addr = none ∧
      r.2.freed = m.freed ++ [p.ptr_.addr] ∧
      r.2.freed.count p.ptr_.addr = 1) := by
  intro r
  refine ⟨?_, ?_, ?_, ?_⟩
  · cases arena <;>
      by_cases hdef : p.IsDefault d = true <;>
        simp [r, ArenaStringPtr.SetAllocated, ArenaStringPtr.Destroy, hdef, TaggedPtr.SetStd]
  · intro h
    simp [r, ArenaStringPtr.SetAllocated, h]
  · intro h hdef
    simp [r, ArenaStringPtr.SetAllocated, h, hdef]
  · intro h hdef
    have hfreed : p.ptr_.addr ∉ m.freed := Mem.lookup_notMem_freed hWF hp.1
    refine ⟨?_, ?_, ?_⟩
    · simp [r, ArenaStringPtr.SetAllocated, ArenaStringPtr.Destroy, h, hdef]
    · simp [r, ArenaStringPtr.SetAllocated, ArenaStringPtr.Destroy, h, hdef]
    · simp [r, ArenaStringPtr.SetAllocated, ArenaStringPtr.Destroy, h, hdef,
        List.count_append, List.count_eq_zero.mpr hfreed]

/-- Witness for C8 at a concrete input: `SetAllocated` of `NULL` on the
heap-owned holder `p1` with no arena. -/
theorem c8_witness :
    let r := p1.SetAllocated 0 none false m1
    r.1.IsDefault 0 = true ∧
    (false = true → r.2 = m1) ∧
    (false = false → p1.IsDefault 0 = true → r.2 = m1) ∧
    (false = false → p1.IsDefault 0 = false →
      r.2.lookup p1.ptr_.addr = none ∧
      r.2.freed = m1.freed ++ [p1.ptr_.addr] ∧
      r.2.freed.count p1.ptr_.addr = 1) :=
  c8_set_allocated_null_resets p1 0 false m1 m1_WF p1_WF

/-- A sequence of `ArenaString::Assign` calls, folded over one
representation instance. -/
def assignSeq (s : StrObj) (l : List (String × Bool)) : StrObj :=
  l.foldl (fun acc vb => ArenaString.Assign acc vb.1 vb.2) s

/-- One `ArenaString::Assign` never shrinks the capacity. -/
theorem ArenaString.capacity_le_assign (s : StrObj) (v : String) (a : Bool) :
    s.capacity ≤ (ArenaString.Assign s v a).capacity := by
  unfold ArenaString.Assign
  split
  · simp [stdAssign]
  · split
    · simp
      omega
    · simp

/-- The capacity is monotonically non-decreasing along any sequence of
assigns. -/
theorem capacity_le_assignSeq (l : List (String × Bool)) :
    ∀ s : StrObj, s.capacity ≤ (assignSeq s l).capacity := by
  induction l with
  | nil =>
    intro s
    exact le_refl _
  | cons vb rest ih =>
    intro s
    exact le_trans (ArenaString.capacity_le_assign s vb.1 vb.2) (ih _)

/-- Claim C9: `ArenaString::Assign` capacity discipline.  With an arena
and insufficient capacity, the new buffer's capacity is exactly the
assigned value's size and a buffer is allocated; across any sequence of
assigns the capacity never decreases; and an assign whose value fits
the current capacity performs no allocation. -/
theorem c9_assign_capacity_discipline (s : StrObj) (v : String) (arena : Bool)
    (l : List (String × Bool)) :
    (arena = true → s.capacity < v.length →
      (ArenaString.Assign s v arena).capacity = v.length ∧
      ArenaString.AssignAllocates s v = true) ∧
    s.capacity ≤ (assignSeq s l).capacity ∧
    (v.length ≤ s.capacity → ArenaString.AssignAllocates s v = false) := by
  refine ⟨?_, capacity_le_assignSeq l s, ?_⟩
  · intro ha hlt
    subst ha
    constructor
    · simp [ArenaString.Assign, hlt]
    · simp [ArenaString.AssignAllocates, hlt]
  · intro hle
    simp [ArenaString.AssignAllocates]
    omega

/-- Each `NoArena` operation preserves the heap representation tag. -/
theorem NoArenaOp.step_tag (d : Nat) (s : ArenaStringPtr × Mem) (op : NoArenaOp)
    (h : s.1.ptr_.tag = false) : (NoArenaOp.step d s op).1.ptr_.tag = false := by
  cases op <;>
    simp only [NoArenaOp.step, ArenaStringPtr.SetNoArena, ArenaStringPtr.SetNoArenaMove,
      ArenaStringPtr.MutableNoArena, ArenaStringPtr.ReleaseNoArena,
      ArenaStringPtr.ReleaseNonDefaultNoArena, ArenaStringPtr.SetAllocatedNoArena,
      ArenaStringPtr.CreateInstanceNoArena, ArenaStringPtr.ClearToEmptyNoArena,
      ArenaStringPtr.ClearToDefaultNoArena, ArenaStringPtr.DestroyNoArena,
      TaggedPtr.SetStd] <;>
    (repeat' split) <;>
    simp_all [TaggedPtr.SetStd]

/-- Claim C4: no-arena confinement.  A holder that starts unset and is
mutated only through the `NoArena` operation set never carries the
arena representation tag, for every finite sequence of such
operations — it stays confined to the unset/heap-owned
representations. -/
theorem c4_no_arena_confinement (d : Nat) (m : Mem) (ops : List NoArenaOp) :
    (NoArenaOp.run d (ArenaStringPtr.UnsafeSetDefault d, m) ops).1.ptr_.tag = false := by
  suffices h : ∀ s : ArenaStringPtr × Mem, s.1.ptr_.tag = false →
      (NoArenaOp.run d s ops).1.ptr_.tag = false by
    exact h _ (by simp [ArenaStringPtr.UnsafeSetDefault, TaggedPtr.SetStd])
  induction ops with
  | nil =>
    intro s h
    exact h
  | cons op rest ih =>
    intro s h
    exact ih _ (NoArenaOp.step_tag d s op h)

/-- Witness for C4 at a concrete input: a short mixed sequence of
`NoArena` operations starting from the unset holder. -/
theorem c4_witness :
    (NoArenaOp.run 0 (ArenaStringPtr.UnsafeSetDefault 0, m0)
      [NoArenaOp.setCopy "a", NoArenaOp.mutate, NoArenaOp.clearToEmpty,
       NoArenaOp.release, NoArenaOp.setAlloc (some 5), NoArenaOp.destroy]).1.ptr_.tag
      = false :=
  c4_no_arena_confinement 0 m0
    [NoArenaOp.setCopy "a", NoArenaOp.mutate, NoArenaOp.clearToEmpty,
     NoArenaOp.release, NoArenaOp.setAlloc (some 5), NoArenaOp.destroy]

/-- Witness for C5 at a concrete input: `"x"` on an arena swapped with
`"y"` on the heap. -/
theorem c5_witness :
    let u := ArenaStringPtr.UnsafeSetDefault 0
    let s1 := u.Set 0 "x" true m0
    let s2 := s1.1.Swap (u.Set 0 "y" false s1.2).1
    s2.1.ptr_ = (u.Set 0 "y" false s1.2).1.ptr_ ∧
    s2.2.ptr_ = s1.1.ptr_ ∧
    ArenaStringPtr.Get s2.1 (u.Set 0 "y" false s1.2).2 = some "y" ∧
    ArenaStringPtr.Get s2.2 (u.Set 0 "y" false s1.2).2 = some "x" :=
  c5_swap_pure_exchange 0 "x" "y" true false m0

/-- Witness for C9 at a concrete input: a growth assign on the default
inline capacity, followed by a two-element assign sequence. -/
theorem c9_witness :
    (true = true → defaultObj.capacity < "a string longer than fifteen".length →
      (ArenaString.Assign defaultObj "a string longer than fifteen" true).capacity
        = "a string longer than fifteen".length ∧
      ArenaString.AssignAllocates defaultObj "a string longer than fifteen" = true) ∧
    defaultObj.capacity ≤ (assignSeq defaultObj [("abc", true), ("xy", false)]).capacity ∧
    ("a string longer than fifteen".length ≤ defaultObj.capacity →
      ArenaString.AssignAllocates defaultObj "a string longer than fifteen" = false) :=
  c9_assign_capacity_discipline defaultObj "a string longer than fifteen" true
    [("abc", true), ("xy", false)]
